import Mathlib

/- Verification development for the OpenMM Orion MD cube layer: a shallow
embedding of MDCubes/OpenMMCubes/simtools.py, MDCubes/OpenMMCubes/cubes.py
and Standards/standards.py, with theorems settling the specification claims
about timestep resolution, reporter scheduling, platform negotiation,
velocity seeding, the GPU lock arbiter and the stage-record pipeline. -/

namespace OpenMMOrion

/- Section: Python rounding. Python 3 round() rounds half to even; the
float values of the source are modelled as exact rationals. -/

/-- Python 3 int(round(q)) on an exact rational: round half to even. -/
def pyRound (q : ℚ) : ℤ :=
  let f : ℤ := ⌊q⌋
  if q - f < 1/2 then f
  else if (1 : ℚ)/2 < q - f then f + 1
  else if f % 2 = 0 then f else f + 1

/- Section: timestep resolution and time-to-step conversion,
simtools.py lines 77-84, 235, 285, 395-396, 416-417. -/

/-- Time step in picoseconds, simtools.py lines 77-84: 0.004 ps when
hydrogen mass repartitioning is on, else 0.002 ps. -/
def stepLen_ps (hmr : Bool) : ℚ := if hmr then 4/1000 else 2/1000

/-- The divisor used by the conversions: stepLen converted to nanoseconds,
as in stepLen.in_units_of(unit.nanoseconds)/unit.nanoseconds. -/
def stepLen_ns (hmr : Bool) : ℚ := stepLen_ps hmr / 1000

/-- Step count, simtools.py line 235: the requested time divided by the
step length expressed in nanoseconds, rounded to an integer. -/
def simSteps (time : ℚ) (hmr : Bool) : ℤ := pyRound (time / stepLen_ns hmr)

/-- Scalar-log report interval in steps, simtools.py lines 395-396. -/
def reporterSteps (reporter_interval : ℚ) (hmr : Bool) : ℤ :=
  pyRound (reporter_interval / stepLen_ns hmr)

/-- Trajectory report interval in steps, simtools.py lines 416-417. -/
def trajectorySteps (trajectory_interval : ℚ) (hmr : Bool) : ℤ :=
  pyRound (trajectory_interval / stepLen_ns hmr)

/-- Total trajectory frame count, simtools.py line 285. -/
def totalFrames (time trajectory_interval : ℚ) : ℤ :=
  pyRound (time / trajectory_interval)

/- Section: reporter construction, getReporters in simtools.py lines 366-423. -/

/-- The three reporter shapes built by getReporters: the scalar state
reporter writing to the .log file, the progress reporter writing to stdout,
and the HDF5 trajectory reporter writing to the .h5 file. -/
inductive Reporter where
  | stateData (file : String) (interval : ℤ)
  | progressData (interval : ℤ)
  | trajHDF5 (file : String) (interval : ℤ)
deriving DecidableEq, Repr

/-- Whether a reporter belongs to the trajectory-snapshot channel. -/
def Reporter.isTraj : Reporter → Bool
  | .trajHDF5 _ _ => true
  | _ => false

/-- Whether a reporter belongs to the scalar-log channel (state data file
or stdout progress). -/
def Reporter.isScalarLog : Reporter → Bool
  | .stateData _ _ => true
  | .progressData _ => true
  | _ => false

/-- getReporters, simtools.py lines 391-423: the state and progress
reporters are appended when reporter_interval is truthy (nonzero), the
HDF5 trajectory reporter when trajectory_interval is truthy (nonzero). -/
def getReporters (reporter_interval trajectory_interval : ℚ) (hmr : Bool)
    (outfname : String) : List Reporter :=
  (if reporter_interval ≠ 0 then
      [Reporter.stateData (outfname ++ ".log") (reporterSteps reporter_interval hmr),
       Reporter.progressData (reporterSteps reporter_interval hmr)]
    else []) ++
  (if trajectory_interval ≠ 0 then
      [Reporter.trajHDF5 (outfname ++ ".h5") (trajectorySteps trajectory_interval hmr)]
    else [])

/- Section: Auto platform selection, simtools.py lines 161-172. -/

/-- The fixed fallback order of the Auto branch. -/
def platformOrder : List String := ["CUDA", "OpenCL", "CPU", "Reference"]

/-- The Auto selection loop body: try each back-end name in order; a failed
instantiation moves to the next name, except that a failure at Reference
raises the fatal error. The avail argument tells which back-end names
Platform_getPlatformByName can instantiate on this host. -/
def tryPlatforms (avail : String → Bool) : List String → Except String String
  | [] => .error "It was not possible to select any OpenMM Platform"
  | p :: rest =>
    if avail p then .ok p
    else if p = "Reference" then
      .error "It was not possible to select any OpenMM Platform"
    else tryPlatforms avail rest

/-- Platform resolution under the Auto preference. -/
def selectAutoPlatform (avail : String → Bool) : Except String String :=
  tryPlatforms avail platformOrder

/- Section: velocity seeding, simtools.py lines 224-232. -/

/-- The three stage kinds set by the cube begin methods. -/
inductive SimType where
  | minimize
  | nvt
  | npt
deriving DecidableEq, Repr

/-- What the velocity-seeding code does to the simulation context. -/
inductive VelAction where
  | restartFrom (v : List ℚ)
  | maxwellBoltzmann (temperature : ℚ)
  | noThermal
deriving DecidableEq, Repr

/-- Velocity seeding, simtools.py lines 224-232: only the nvt and npt
branch touches velocities; present velocities are reused through
setVelocities, absent ones are drawn by setVelocitiesToTemperature at the
configured temperature; the minimization branch never sets velocities. -/
def seedVelocities (simType : SimType) (velocities : Option (List ℚ))
    (temperature : ℚ) : VelAction :=
  match simType with
  | .nvt | .npt =>
    match velocities with
    | some v => .restartFrom v
    | none => .maxwellBoltzmann temperature
  | .minimize => .noThermal

/- Section: the local_cluster GPU lock arbiter, simtools.py lines 15-53. -/

/-- The errno value the except clause on line 42 compares against
(errno.EACCES, 13). -/
def EACCES : ℕ := 13

/-- The errno a contended non-blocking flock actually raises on the Linux
hosts this code targets (errno.EAGAIN alias EWOULDBLOCK, 11): a busy
LOCK_EX with LOCK_NB raises BlockingIOError with this errno, not EACCES,
so the comment on line 42 does not match the flock primitive. -/
def EAGAIN : ℕ := 11

/-- Outcome of one body of the while True loop after the device lock file
has been opened: either the non-blocking flock raises BlockingIOError,
an IOError carrying errno EAGAIN, because the lock is held by another
process, or the lock is acquired and the wrapped sim call finishes or
raises. An IOError raised inside the with block carries its errno; any
other exception carries its message text. -/
inductive IterOutcome where
  | ok
  | ioError (errno : ℕ)
  | exc (msg : String)
deriving DecidableEq, Repr

/-- Result of running the while True loop over a finite trace of iteration
outcomes, accumulating the total contention sleep in seconds: success and
failure record the sleep spent before they happened; waiting means the
trace ended with the loop still retrying. -/
inductive LoopResult where
  | success (sleptSeconds : ℚ)
  | failure (msg : String) (sleptSeconds : ℚ)
  | waiting (sleptSeconds : ℚ)
deriving DecidableEq, Repr

/-- The while True retry loop of local_cluster, lines 23-49, driven by the
trace of iteration outcomes. Only an IOError whose errno equals EACCES
sleeps 0.1 seconds and goes around again. On every other exception the
with block has already closed the device file during unwinding, so the
explicit fcntl.flock(file, LOCK_UN) call of the handler raises ValueError
with the message I/O operation on closed file before the raise statements
on lines 46 and 49 are reached, and that ValueError propagates to the
caller. A successful body unlocks inside the with block and breaks out of
the loop. -/
def runLoop : List IterOutcome → ℚ → LoopResult
  | [], slept => .waiting slept
  | .ok :: _, slept => .success slept
  | .ioError e :: rest, slept =>
    if e = EACCES then runLoop rest (slept + 1/10)
    else .failure "I/O operation on closed file" slept
  | .exc _ :: _, slept => .failure "I/O operation on closed file" slept

/-- The device index targeted at a given loop iteration, line 25: the
expression gpus[system_id mod len gpus] sits inside the loop body but only
reads loop-invariant data, so the iteration number is dead. -/
def gpuIdAt (gpus : List String) (systemId : ℕ) (_iteration : ℕ) : Option String :=
  gpus[systemId % gpus.length]?

/-- Effect of the exception handlers, lines 41-49, on an iteration whose
body produced the given outcome while the lease was held: whether the
explicit flock(file, LOCK_UN) of the handler ran to completion, what
exception escaped to the caller, whether the loop went around again, and
whether the OS-level flock on the device file was released. -/
structure HandlerEffect where
  unlockedByHandler : Bool
  raisedMsg : Option String
  retried : Bool
  lockReleased : Bool
deriving DecidableEq, Repr

/-- Dispatch of the except clauses of local_cluster as they actually
execute. An IOError with errno EACCES sleeps and retries with nothing
raised. On any other exception the with block has already closed the
device file during unwinding, so the explicit flock(file, LOCK_UN) of the
handler raises ValueError with the message I/O operation on closed file,
making the raise statements on lines 46 and 49 unreachable (line 49 would
also fail on Python 3, where e.message does not exist). The OS drops an
flock when the last descriptor on the file closes, so the lease itself is
released on every path: explicitly inside the with block on success, and
as a side effect of the close on every exception path. -/
def handleBodyOutcome : IterOutcome → HandlerEffect
  | .ok => ⟨true, none, false, true⟩
  | .ioError e =>
    if e = EACCES then ⟨false, none, true, true⟩
    else ⟨false, some "I/O operation on closed file", false, true⟩
  | .exc _ => ⟨false, some "I/O operation on closed file", false, true⟩

/- Section: cross-process mutual exclusion model of the per-device flock.
The OS flock primitive with LOCK_EX guarantees that the lock on one file
is held by at most one file description; the acquire transition below is
guarded accordingly, and jobs follow the local_cluster protocol of
locking their device file before the stage and unlocking after. -/

/-- Global state of one shared host: which job (if any) owns each device
lock file, and which device (if any) each job currently holds. -/
structure ArbState where
  lockOwner : String → Option ℕ
  holding : ℕ → Option String

/-- The initial state: every lock free, no job holding a device. -/
def ArbState.init : ArbState := ⟨fun _ => none, fun _ => none⟩

/-- Transitions of the arbiter protocol: a job acquires its device only
when the non-blocking exclusive flock succeeds (lock currently free); a
job whose flock attempt finds the lock busy sleeps and leaves the state
unchanged; a job releases the device it holds when its stage ends. -/
inductive ArbStep : ArbState → ArbState → Prop
  | acquire (s : ArbState) (j : ℕ) (d : String)
      (hj : s.holding j = none) (hd : s.lockOwner d = none) :
      ArbStep s ⟨fun d2 => if d2 = d then some j else s.lockOwner d2,
                 fun j2 => if j2 = j then some d else s.holding j2⟩
  | contend (s : ArbState) (j : ℕ) (d : String) (k : ℕ)
      (hd : s.lockOwner d = some k) : ArbStep s s
  | release (s : ArbState) (j : ℕ) (d : String)
      (hj : s.holding j = some d) :
      ArbStep s ⟨fun d2 => if d2 = d then none else s.lockOwner d2,
                 fun j2 => if j2 = j then none else s.holding j2⟩

/-- States reachable from the all-free initial state. -/
def Reachable (s : ArbState) : Prop :=
  Relation.ReflTransGen ArbStep ArbState.init s

/-- Coherence between the two views of the state: a job holding a device
owns that device lock file. -/
def Coherent (s : ArbState) : Prop :=
  ∀ j d, s.holding j = some d → s.lockOwner d = some j

/-- A concrete reachable state: job 0 acquired device 0 from the initial
state. -/
def demoAcquired : ArbState :=
  ⟨fun d2 => if d2 = "0" then some 0 else none,
   fun j2 => if j2 = 0 then some "0" else none⟩

/- Section: per-system SD-tag override resolution, cubes.py lines 179-189
(minimize), 401-411 (nvt) and 661-673 (npt). -/

/-- A value held in the per-cube option dictionary: either a number or a
raw string. -/
inductive PVal where
  | num (q : ℚ)
  | str (s : String)
deriving DecidableEq, Repr

/-- Value of a decimal digit character. -/
def digitVal (c : Char) : Option ℕ :=
  if c.isDigit then some (c.toNat - 48) else none

/-- Accumulate a digit string into a natural number; fails on the first
character that is not a digit. -/
def digitsVal : List Char → ℕ → Option ℕ
  | [], acc => some acc
  | c :: cs, acc =>
    match digitVal c with
    | some d => digitsVal cs (acc * 10 + d)
    | none => none

/-- The Python float builtin applied to a string, restricted to plain
signed decimal literals; any string outside that shape raises, modelled by
returning none. -/
def parseFloatQ (s : String) : Option ℚ :=
  let cs := s.toList
  let signed : ℚ × List Char :=
    match cs with
    | '-' :: rest => (-1, rest)
    | '+' :: rest => (1, rest)
    | _ => (1, cs)
  let intPart := signed.2.takeWhile (fun c => c ≠ '.')
  let rest := signed.2.dropWhile (fun c => c ≠ '.')
  match rest with
  | [] =>
    match intPart with
    | [] => none
    | _ => (digitsVal intPart 0).map (fun n => signed.1 * n)
  | _ :: frac =>
    if frac.contains '.' then none
    else if intPart.isEmpty && frac.isEmpty then none
    else
      match (match intPart with | [] => some 0 | _ => digitsVal intPart 0),
            (match frac with | [] => some 0 | _ => digitsVal frac 0) with
      | some ip, some fp => some (signed.1 * (ip + (fp : ℚ) / 10 ^ frac.length))
      | _, _ => none

/-- The dict comprehension over the SD data pairs filtered to the allowed
tags: a Python dict keeps the value of the last pair with a given tag. -/
def lastSDValue (sdPairs : List (String × String)) (key : String) : Option String :=
  ((sdPairs.filter (fun p => p.1 = key)).getLast?).map (fun p => p.2)

/-- Override resolution for one parameter key, cubes.py lines 179-189:
build new_args from the SD pairs, attempt the float conversion with a
bare except that passes on failure (leaving the raw string in new_args),
then opt.update(new_args). Returns the resulting value of the parameter
in the option dictionary. -/
def resolvedParam (configured : ℚ) (sdPairs : List (String × String))
    (key : String) : PVal :=
  match lastSDValue sdPairs key with
  | none => .num configured
  | some v =>
    match parseFloatQ v with
    | some q => .num q
    | none => .str v

/- Section: emission behaviour of the stage cube process methods,
cubes.py lines 136-217 (minimize), 358-471 (nvt), 618-732 (npt). -/

/-- The presence of the record fields the process method checks. -/
structure RecordFields where
  hasPrimaryMol : Bool
  hasId : Bool
  hasMdStages : Bool
deriving DecidableEq, Repr

/-- The two output ports a record can be emitted on. -/
inductive Port where
  | success
  | failure
deriving DecidableEq, Repr

/-- record.get_value on the md_stages field: raises when the field is
absent from the record. -/
def getValueMdStages (r : RecordFields) : Except Unit Unit :=
  if r.hasMdStages then .ok () else .error ()

/-- Emission trace of the process methods: the missing-primary-molecule
branch emits to failure and returns; the missing-md-stages branch warns
and emits to failure but does not return (lines 162-164), so control
reaches record.get_value(Fields.md_stages), which raises and lands in the
bare except handler, emitting to failure again (lines 212-215). The
bodyOk flag abstracts whether the remaining stage body (simulation and
record update) runs to completion; when it raises, the same bare except
emits the record to failure. -/
def processEmits (r : RecordFields) (bodyOk : Bool) : List Port :=
  if !r.hasPrimaryMol then [.failure]
  else
    let preEmits : List Port := if !r.hasMdStages then [.failure] else []
    match getValueMdStages r with
    | .error _ => preEmits ++ [.failure]
    | .ok _ =>
      if bodyOk then preEmits ++ [.success]
      else preEmits ++ [.failure]

/- Section: the stage-record history, Standards/standards.py lines 79-97
and the append path of the cube process methods, cubes.py lines 166-208. -/

/-- The mutable Parmed-structure data a stage reads and writes: positions,
optional velocities and optional box vectors. -/
structure Snapshot where
  positions : List ℚ
  velocities : Option (List ℚ)
  boxVectors : Option (List ℚ)
deriving DecidableEq, Repr

/-- MDSystemRecord, standards.py lines 80-85: the topology molecule and
the parametrized structure. The topology is opaque here. -/
structure MDSystemRecord where
  topology : ℕ
  structureData : Snapshot
deriving DecidableEq, Repr

/-- MDStageRecord, standards.py lines 87-97: stage name, log text, the
system record, and the trajectory field. -/
structure MDStageRecord where
  stageName : String
  logData : String
  mdSystem : MDSystemRecord
  trajectory : String
deriving DecidableEq, Repr

/-- The MDStageRecord constructor, standards.py lines 89-97: a falsy
trajectory argument stores the empty string. -/
def mkMDStageRecord (name log : String) (sys : MDSystemRecord)
    (traj : Option String) : MDStageRecord :=
  ⟨name, log, sys, traj.getD ""⟩

/-- End-of-stage write-back, simtools.py lines 344-352: positions are
always overwritten, box vectors only when a box is present, velocities
only for the nvt and npt stages. -/
def writeBack (simType : SimType) (s : Snapshot) (newPos newVel newBox : List ℚ) :
    Snapshot :=
  { positions := newPos
    boxVectors := if s.boxVectors.isSome then some newBox else s.boxVectors
    velocities :=
      if simType = .nvt ∨ simType = .npt then some newVel else s.velocities }

/-- Modelled from the spec: reading the structure field of a stored record
goes through the ParmedData field type of Standards/utils.py, which is not
under src; per the spec the snapshot is owned exclusively by the record,
so a read yields a fresh copy and is modelled by value semantics here.
Executing one stage cube on a run history, cubes.py lines 166-208: extract
the snapshot of the last record, run the simulation write-back on it, and
append a new stage record wrapping the updated snapshot. -/
def processStageHistory (stages : List MDStageRecord) (stageName log : String)
    (simType : SimType) (newPos newVel newBox : List ℚ) (traj : Option String) :
    List MDStageRecord :=
  match stages.getLast? with
  | none => stages
  | some last =>
    let snap := last.mdSystem.structureData
    let snap2 := writeBack simType snap newPos newVel newBox
    stages ++ [mkMDStageRecord stageName log ⟨last.mdSystem.topology, snap2⟩ traj]

/- Section: helper lemmas shared by the claim theorems. -/

/-- pyRound is the identity on integer values. -/
theorem pyRound_intCast (n : ℤ) : pyRound ((n : ℚ)) = n := by
  simp only [pyRound, Int.floor_intCast, sub_self]
  norm_num

/-- The closed-file error message is not any message carrying the wrapped
Simulation Failed suffix. -/
theorem no_wrapped_suffix (m : String) :
    "I/O operation on closed file" ≠ m ++ " Simulation Failed" := by
  intro h
  have h2 : ("I/O operation on closed file").data
      = m.data ++ (" Simulation Failed").data := by
    rw [h]
    rfl
  have h3 : (" Simulation Failed").data <:+ ("I/O operation on closed file").data :=
    ⟨m.data, h2.symm⟩
  exact absurd h3 (by decide)

/-- Coherence holds in the initial state. -/
theorem coherent_init : Coherent ArbState.init := by
  intro j d h
  simp [ArbState.init] at h

/-- Coherence is preserved by every arbiter transition. -/
theorem coherent_step {s t : ArbState} (h : ArbStep s t) (hc : Coherent s) :
    Coherent t := by
  cases h with
  | acquire j d hj hd =>
    intro j2 d2 h2
    simp only at h2 ⊢
    by_cases hjj : j2 = j
    · subst hjj
      rw [if_pos rfl] at h2
      cases h2
      rw [if_pos rfl]
    · rw [if_neg hjj] at h2
      have hlo := hc j2 d2 h2
      have hdd : d2 ≠ d := by
        intro hdd
        subst hdd
        rw [hd] at hlo
        exact Option.noConfusion hlo
      rw [if_neg hdd]
      exact hlo
  | contend j d k hd => exact hc
  | release j d hj =>
    intro j2 d2 h2
    simp only at h2 ⊢
    by_cases hjj : j2 = j
    · subst hjj
      rw [if_pos rfl] at h2
      exact Option.noConfusion h2
    · rw [if_neg hjj] at h2
      have hlo := hc j2 d2 h2
      have hdd : d2 ≠ d := by
        intro hdd
        subst hdd
        have hlo2 := hc j d2 hj
        rw [hlo] at hlo2
        exact hjj (Option.some.inj hlo2)
      rw [if_neg hdd]
      exact hlo

/-- Coherence holds in every reachable state. -/
theorem reachable_coherent {s : ArbState} (h : Reachable s) : Coherent s := by
  induction h with
  | refl => exact coherent_init
  | tail _ hstep ih => exact coherent_step hstep ih

/- Section: claim theorems. -/

/-- Claim C1 (code bug): the resolved timestep is 0.004 ps under hydrogen
mass repartitioning and 0.002 ps otherwise, but the conversions divide the
requested duration and intervals by the timestep expressed in nanoseconds
while the cube parameters are documented in picoseconds, so time 10.0 with
timestep 0.002 ps yields 5000000 steps, not the 5000 the claim states, and
trajectory interval 0.5 yields a 250000-step sampling interval, not 250;
only the total frame count of 20 matches the claim. -/
theorem claim_c1_unit_mismatch :
    stepLen_ps true = 4/1000 ∧ stepLen_ps false = 2/1000 ∧
    simSteps 10 false = 5000000 ∧ simSteps 10 false ≠ 5000 ∧
    trajectorySteps (1/2) false = 250000 ∧ totalFrames 10 (1/2) = 20 := by
  have hsim : simSteps 10 false = 5000000 := by
    have h : (10 : ℚ) / stepLen_ns false = ((5000000 : ℤ) : ℚ) := by
      norm_num [stepLen_ns, stepLen_ps]
    show pyRound ((10 : ℚ) / stepLen_ns false) = 5000000
    rw [h, pyRound_intCast]
  have htraj : trajectorySteps (1/2) false = 250000 := by
    have h : (1 : ℚ)/2 / stepLen_ns false = ((250000 : ℤ) : ℚ) := by
      norm_num [stepLen_ns, stepLen_ps]
    show pyRound ((1 : ℚ)/2 / stepLen_ns false) = 250000
    rw [h, pyRound_intCast]
  have hfr : totalFrames 10 (1/2) = 20 := by
    have h : (10 : ℚ) / (1/2) = ((20 : ℤ) : ℚ) := by norm_num
    show pyRound ((10 : ℚ) / (1/2)) = 20
    rw [h, pyRound_intCast]
  refine ⟨by norm_num [stepLen_ps], by norm_num [stepLen_ps], hsim, ?_, htraj, hfr⟩
  rw [hsim]
  norm_num

/-- Claim C2: in every state reachable by the arbiter protocol, whose
acquire transition is guarded by the exclusive per-device flock, no two
jobs hold a lease on the same device at the same instant. -/
theorem claim_c2_device_mutual_exclusion (s : ArbState) (hs : Reachable s)
    (j1 j2 : ℕ) (d : String)
    (h1 : s.holding j1 = some d) (h2 : s.holding j2 = some d) : j1 = j2 := by
  have hc := reachable_coherent hs
  have o1 := hc j1 d h1
  have o2 := hc j2 d h2
  rw [o1] at o2
  exact Option.some.inj o2

/-- Witness for claim C2: in the concrete reachable state where job 0
acquired device 0, the two holders of device 0 coincide. -/
theorem claim_c2_witness : (0 : ℕ) = 0 :=
  claim_c2_device_mutual_exclusion demoAcquired
    (Relation.ReflTransGen.single (ArbStep.acquire ArbState.init 0 "0" rfl rfl))
    0 0 "0" rfl rfl

/-- Claim C3: executing a later stage on a nonempty run history appends
one new stage record and leaves every previously appended record, and
hence the snapshot it owns, unchanged. The stored snapshots are read by
value (serialized ParmedData field, modelled from the spec). -/
theorem claim_c3_stage_records_append_only (stages : List MDStageRecord)
    (nm lg : String) (st : SimType) (p v b : List ℚ) (tr : Option String)
    (h : stages ≠ []) :
    (processStageHistory stages nm lg st p v b tr).take stages.length = stages ∧
    (processStageHistory stages nm lg st p v b tr).length = stages.length + 1 := by
  match hgl : stages.getLast? with
  | none =>
    rw [List.getLast?_eq_none_iff] at hgl
    exact absurd hgl h
  | some last =>
    unfold processStageHistory
    rw [hgl]
    constructor
    · exact List.take_left stages _
    · simp

/-- Witness for claim C3 at a concrete one-record history. -/
theorem claim_c3_witness :
    (processStageHistory [mkMDStageRecord "SETUP" "" ⟨0, ⟨[0], none, none⟩⟩ none]
        "MINIMIZATION" "log" .minimize [1] [] [] none).take 1
      = [mkMDStageRecord "SETUP" "" ⟨0, ⟨[0], none, none⟩⟩ none] ∧
    (processStageHistory [mkMDStageRecord "SETUP" "" ⟨0, ⟨[0], none, none⟩⟩ none]
        "MINIMIZATION" "log" .minimize [1] [] [] none).length = 1 + 1 :=
  claim_c3_stage_records_append_only
    [mkMDStageRecord "SETUP" "" ⟨0, ⟨[0], none, none⟩⟩ none]
    "MINIMIZATION" "log" .minimize [1] [] [] none (by simp)

/-- Claim C4 (code bug): a contended non-blocking flock raises
BlockingIOError with errno EAGAIN, which is not the EACCES the handler
tests for, so an acquire attempt that finds the lock held falls into the
else branch: no 0.1 second sleep happens, the loop does not go around
again, and the ValueError raised by flocking the already-closed file is
surfaced to the caller as a job failure, contradicting the claimed
retry-without-failure behaviour that the comment on line 42 intends. -/
theorem claim_c4_contention_surfaced :
    EAGAIN ≠ EACCES ∧
    runLoop [IterOutcome.ioError EAGAIN] 0
      = LoopResult.failure "I/O operation on closed file" 0 ∧
    (handleBodyOutcome (IterOutcome.ioError EAGAIN)).retried = false ∧
    (handleBodyOutcome (IterOutcome.ioError EAGAIN)).raisedMsg
      = some "I/O operation on closed file" := by
  exact ⟨by decide, rfl, rfl, rfl⟩

/-- Claim C5 (code bug): when the simulation body raises while the lease
is held, the handlers run after the with block has closed the device
file, so their explicit unlock raises ValueError with the closed-file
message and no execution path re-raises a message ending in the wrapped
Simulation Failed suffix; the lease itself is released on every path only
as a side effect of the file close; and a body-raised IOError with errno
EACCES is silently retried rather than surfaced at all. -/
theorem claim_c5_error_path_collapse :
    (handleBodyOutcome (.exc "boom")).raisedMsg
      = some "I/O operation on closed file" ∧
    (handleBodyOutcome (.exc "boom")).unlockedByHandler = false ∧
    (∀ o m, (handleBodyOutcome o).raisedMsg ≠ some (m ++ " Simulation Failed")) ∧
    (∀ o, (handleBodyOutcome o).lockReleased = true) ∧
    (handleBodyOutcome (.ioError EACCES)).retried = true ∧
    (handleBodyOutcome (.ioError EACCES)).raisedMsg = none := by
  refine ⟨rfl, rfl, ?_, ?_, rfl, rfl⟩
  · intro o m h
    cases o with
    | ok => exact Option.noConfusion h
    | ioError e =>
      by_cases he : e = EACCES
      · simp [handleBodyOutcome, he] at h
      · simp [handleBodyOutcome, he] at h
        exact no_wrapped_suffix m h
    | exc msg =>
      simp [handleBodyOutcome] at h
      exact no_wrapped_suffix m h
  · intro o
    cases o with
    | ok => rfl
    | ioError e => by_cases he : e = EACCES <;> simp [handleBodyOutcome, he]
    | exc msg => rfl

/-- Claim C6 counterexample: with the configured temperature 300 and an
SD override value that float cannot parse, the resolved parameter is the
raw string, not the unchanged configured number: the bare except only
skips the conversion, after which opt.update still installs the string. -/
theorem claim_c6_counterexample :
    resolvedParam 300 [("temperature", "hot")] "temperature" = .str "hot" ∧
    PVal.str "hot" ≠ PVal.num 300 := by
  exact ⟨rfl, by decide⟩

/-- Claim C6 amended: an override value that fails float conversion is not
dropped: the conversion failure alone is passed over and the raw string
value still replaces the configured parameter; no error is raised during
resolution. -/
theorem claim_c6_unparsed_override (configured : ℚ)
    (sd : List (String × String)) (key v : String)
    (hv : lastSDValue sd key = some v) (hp : parseFloatQ v = none) :
    resolvedParam configured sd key = .str v := by
  simp [resolvedParam, hv, hp]

/-- Witness for claim C6 at a concrete unparseable override. -/
theorem claim_c6_witness :
    resolvedParam 300 [("temperature", "hot")] "temperature" = .str "hot" :=
  claim_c6_unparsed_override 300 [("temperature", "hot")] "temperature" "hot"
    rfl rfl

/-- Claim C7: under the Auto preference the back-ends are tried in the
fixed order CUDA, OpenCL, CPU, Reference; every successful selection is
the first available name in that order (hence deterministic); a host where
only Reference is available always resolves to Reference; and when no
back-end at all is available the fatal error is raised. -/
theorem claim_c7_auto_platform (avail : String → Bool) :
    (∀ p, selectAutoPlatform avail = .ok p →
        platformOrder.find? (fun q => avail q) = some p) ∧
    (avail "CUDA" = false → avail "OpenCL" = false → avail "CPU" = false →
        avail "Reference" = true → selectAutoPlatform avail = .ok "Reference") ∧
    ((∀ p, p ∈ platformOrder → avail p = false) →
        selectAutoPlatform avail
          = .error "It was not possible to select any OpenMM Platform") := by
  cases hC : avail "CUDA" <;> cases hO : avail "OpenCL" <;>
    cases hP : avail "CPU" <;> cases hR : avail "Reference" <;>
    simp_all [selectAutoPlatform, tryPlatforms, platformOrder, List.find?]

/-- Witness for claim C7 on a host where only Reference instantiates. -/
theorem claim_c7_witness :
    selectAutoPlatform (fun p => p == "Reference") = .ok "Reference" :=
  (claim_c7_auto_platform (fun p => p == "Reference")).2.1 rfl rfl rfl rfl

/-- Claim C8: for NVT and NPT exactly one of the two velocity branches
runs: present velocities are reused and the Maxwell-Boltzmann path is
never taken, absent velocities always take the Maxwell-Boltzmann path and
never the restart path; the minimization stage sets no thermal
velocities. -/
theorem claim_c8_velocity_seeding (st : SimType) (vel : Option (List ℚ))
    (T : ℚ) :
    ((st = .nvt ∨ st = .npt) →
        (∀ v, vel = some v →
            seedVelocities st vel T = .restartFrom v ∧
            ∀ T2, seedVelocities st vel T ≠ .maxwellBoltzmann T2) ∧
        (vel = none →
            seedVelocities st vel T = .maxwellBoltzmann T ∧
            ∀ v, seedVelocities st vel T ≠ .restartFrom v)) ∧
    (st = .minimize → seedVelocities st vel T = .noThermal) := by
  cases st <;> cases vel <;> simp [seedVelocities]

/-- Witness for claim C8 at concrete restart, fresh-start and minimize
inputs. -/
theorem claim_c8_witness :
    seedVelocities .nvt (some [1]) 300 = .restartFrom [1] ∧
    seedVelocities .npt none 300 = .maxwellBoltzmann 300 ∧
    seedVelocities .minimize none 300 = .noThermal :=
  ⟨(((claim_c8_velocity_seeding .nvt (some [1]) 300).1 (Or.inl rfl)).1 [1]
      rfl).1,
   (((claim_c8_velocity_seeding .npt none 300).1 (Or.inr rfl)).2 rfl).1,
   (claim_c8_velocity_seeding .minimize none 300).2 rfl⟩

/-- Claim C9: the scalar-log channel has a reporter exactly when the
reporter interval is nonzero and the trajectory channel has a reporter
exactly when the trajectory interval is nonzero, each independently of the
other channel: a zero interval fully disables its channel. -/
theorem claim_c9_reporter_channels (ri ti : ℚ) (hmr : Bool) (f : String) :
    ((∃ r ∈ getReporters ri ti hmr f, r.isScalarLog = true) ↔ ri ≠ 0) ∧
    ((∃ r ∈ getReporters ri ti hmr f, r.isTraj = true) ↔ ti ≠ 0) := by
  by_cases hri : ri = 0 <;> by_cases hti : ti = 0 <;>
    simp [getReporters, hri, hti, Reporter.isScalarLog, Reporter.isTraj]

/-- Witness for claim C9 at a zero reporter interval and a nonzero
trajectory interval. -/
theorem claim_c9_witness :
    ((∃ r ∈ getReporters 0 (1/2) false "out", r.isScalarLog = true)
        ↔ (0 : ℚ) ≠ 0) ∧
    ((∃ r ∈ getReporters 0 (1/2) false "out", r.isTraj = true)
        ↔ (1 : ℚ)/2 ≠ 0) :=
  claim_c9_reporter_channels 0 (1/2) false "out"

/-- Claim C10 counterexample: an input record that lacks the md-stages
field and also lacks the primary molecule field is emitted on the failure
port exactly once, because the primary-molecule validation branch returns
after its single emit, so the claimed double emission does not hold for
every record lacking md-stages. -/
theorem claim_c10_counterexample :
    processEmits ⟨false, false, false⟩ true = [Port.failure] ∧
    processEmits ⟨false, false, false⟩ true ≠ [Port.failure, Port.failure] ∧
    Port.success ∉ processEmits ⟨false, false, false⟩ true := by
  decide

/-- Claim C10 amended: every input record that carries the primary
molecule field but lacks the md-stages field is emitted on the failure
port exactly twice, once by the non-returning validation branch and once
by the bare except handler after the md-stages field access raises, and is
never emitted on the success port. -/
theorem claim_c10_double_failure_emit (hasId bodyOk : Bool) :
    processEmits ⟨true, hasId, false⟩ bodyOk = [Port.failure, Port.failure] ∧
    Port.success ∉ processEmits ⟨true, hasId, false⟩ bodyOk := by
  cases hasId <;> cases bodyOk <;> decide

/-- Witness for claim C10 at a concrete record with the primary molecule
field and without the md-stages field. -/
theorem claim_c10_witness :
    processEmits ⟨true, true, false⟩ true = [Port.failure, Port.failure] ∧
    Port.success ∉ processEmits ⟨true, true, false⟩ true :=
  claim_c10_double_failure_emit true true

end OpenMMOrion
